import Mathlib

/-!
Verification of the paper-poller update-detection and state core.

Shallow embedding of `paper-poller.py` (class `PaperAPI` and its helpers).
Python dictionaries holding the persisted JSON document are modelled by the
structure `StateDoc`; a key that may be absent is an `Option`, and a JSON
value that may be `null` is a nested `Option`.  The on-disk file is an
`Option StateDoc` (`none` = file missing or unparsable, which
`_read_state_file` maps to the default document).  Side effects (the atomic
state write and webhook posts) are made explicit as event traces, and the
one fallible write per check is driven by a `writeOk` fault-injection flag.
-/

set_option maxRecDepth 100000

namespace PaperPoller

/-- One entry of the `versions` map of the persisted JSON document:
`build` and `channel` keys, each possibly absent, `channel` possibly null. -/
structure VEntry where
  build : Option String
  channel : Option (Option String)
deriving DecidableEq, Repr

/-- The persisted JSON document (`{project}_poller.json`).  Each field models
one top-level key; `none` means the key is absent.  `versions` maps version
ids to `VEntry` (association list with unique keys, as a Python dict). -/
structure StateDoc where
  versions : Option (List (String × VEntry))
  version : Option String
  build : Option String
  channel : Option (Option String)
deriving DecidableEq, Repr

/-- `PaperAPI._read_state_file`: a missing or unparsable file yields the
default document whose only key is an empty `versions` map. -/
def readStateFile (file : Option StateDoc) : StateDoc :=
  match file with
  | none => { versions := some [], version := none, build := none, channel := none }
  | some d => d

/-- Python dict assignment `m[k] = v`: replace the value at an existing key
in place, otherwise append the new binding. -/
def dictInsert : List (String × VEntry) → String → VEntry → List (String × VEntry)
  | [], k, v => [(k, v)]
  | (k', v') :: rest, k, v =>
    if k' == k then (k, v) :: rest else (k', v') :: dictInsert rest k v

/-- `PaperAPI.up_to_date`: legacy comparison of the top-level
`version`/`build` keys, with absent keys normalised to the empty string. -/
def up_to_date (file : Option StateDoc) (version build : String) : Bool :=
  let d := readStateFile file
  d.version.getD "" == version && d.build.getD "" == build

/-- `PaperAPI.up_to_date_for_version`: per-version comparison.  Without a
`versions` map the legacy keys are compared (both must be present); with one,
the entry for `version` defaults to the empty dict and its `build` key is
compared (`None == build` is false in Python, modelled by `Option` equality). -/
def up_to_date_for_version (file : Option StateDoc) (version build : String) : Bool :=
  let d := readStateFile file
  match d.versions with
  | none =>
    match d.version, d.build with
    | some v, some b => v == version && b == build
    | _, _ => false
  | some m =>
    let vd := (m.lookup version).getD { build := none, channel := none }
    vd.build == some build

/-- `PaperAPI.get_stored_data`: returns the document with the legacy keys
`version`/`build`/`channel` filled in with `""` when absent. -/
def get_stored_data (file : Option StateDoc) : StateDoc :=
  let d := readStateFile file
  { d with
    version := some (d.version.getD "")
    build := some (d.build.getD "")
    channel := some (d.channel.getD (some "")) }

/-- `PaperAPI.get_stored_data_for_version`: per-version read.  Without a
`versions` map, a matching legacy `version` key yields the legacy
`build`/`channel` values (`build` defaulting to `""`, `channel` to null);
otherwise, and for an unknown version, the default
`\x7b"build": "", "channel": None\x7d` is returned. -/
def get_stored_data_for_version (file : Option StateDoc) (version : String) : VEntry :=
  let d := readStateFile file
  match d.versions with
  | none =>
    if d.version == some version then
      { build := some (d.build.getD ""), channel := some (d.channel.getD none) }
    else { build := some "", channel := some none }
  | some m => (m.lookup version).getD { build := some "", channel := some none }

/-- `PaperAPI.write_to_json`: the document written in legacy mode — exactly
the three legacy keys, no `versions` map. -/
def write_to_json_doc (version build channel_name : String) : StateDoc :=
  { versions := none
    version := some version
    build := some build
    channel := some (some channel_name) }

/-- `PaperAPI.write_version_to_json`: the document written in per-version
mode.  A prior document without a `versions` key is replaced wholesale by
`\x7b"versions": \x7b\x7d\x7d`; then the entry for `version` is set and the
legacy mirror keys are updated. -/
def write_version_to_json_doc (file : Option StateDoc) (version build channel_name : String) : StateDoc :=
  let d := readStateFile file
  let d :=
    if d.versions == none then
      ({ versions := some [], version := none, build := none, channel := none } : StateDoc)
    else d
  { versions := some (dictInsert (d.versions.getD []) version { build := some build, channel := some (some channel_name) })
    version := some version
    build := some build
    channel := some (some channel_name) }

/-! ## Change formatter (`get_changes_for_build` and helpers) -/

/-- `convert_commit_hash_to_short`: first seven characters of the hash. -/
def convert_commit_hash_to_short (hash : String) : String :=
  String.mk (hash.data.take 7)

/-- One element of the `commits` list of a build record. -/
structure Commit where
  sha : String
  message : String
deriving DecidableEq, Repr

/-- Python `str.strip()`: drop leading and trailing whitespace. -/
def pyStrip (s : List Char) : List Char :=
  ((s.dropWhile Char.isWhitespace).reverse.dropWhile Char.isWhitespace).reverse

/-- `summary.split("\n")[0]`: the text before the first newline. -/
def firstLineOf (s : List Char) : List Char :=
  s.takeWhile (fun c => c != '\n')

/-- Scanner for `re.findall(..)` with the issue-reference pattern: a hash
mark followed by a maximal nonempty run of digits, scanning left to right
over non-overlapping matches; returns the digit groups in match order.
Fuel-indexed so that the definition is structural (the fuel is the length
of the input, which bounds the number of scanning steps). -/
def findTokensGo : Nat → List Char → List (List Char)
  | 0, _ => []
  | _ + 1, [] => []
  | fuel + 1, c :: rest =>
    if c = '#' then
      let ds := rest.takeWhile Char.isDigit
      if ds.isEmpty then findTokensGo fuel rest
      else ds :: findTokensGo fuel (rest.drop ds.length)
    else findTokensGo fuel rest

/-- All digit groups of issue references occurring in a line, in order. -/
def findTokens (s : List Char) : List (List Char) :=
  findTokensGo s.length s

/-- Python `set(..)` of the found tokens.  A concrete iteration order must
be chosen for the model; we keep the first-occurrence order.  (CPython's
set order for strings is arbitrary; theorems about order-dependent outcomes
are stated for explicit orders via `linkifyTokens`.) -/
def dedupFirst (l : List (List Char)) : List (List Char) :=
  l.foldl (fun acc t => if t ∈ acc then acc else acc ++ [t]) []

/-- Python `str.replace`: replace every non-overlapping occurrence of `pat`,
scanning left to right.  Fuel-indexed structural recursion; `pat` is always
nonempty at use sites (a hash mark plus at least one digit). -/
def replaceAllGo (pat rep : List Char) : Nat → List Char → List Char
  | 0, s => s
  | _ + 1, [] => []
  | fuel + 1, c :: rest =>
    if !pat.isEmpty && pat.isPrefixOf (c :: rest) then
      rep ++ replaceAllGo pat rep fuel ((c :: rest).drop pat.length)
    else c :: replaceAllGo pat rep fuel rest

/-- `s.replace(pat, rep)` on character lists. -/
def replaceAll (pat rep s : List Char) : List Char :=
  replaceAllGo pat rep s.length s

/-- The markdown issue link injected for token `t`:
`[#t](https://github.com/PaperMC/project/issues/t)`. -/
def issueLink (proj t : List Char) : List Char :=
  "[#".data ++ t ++ "](https://github.com/PaperMC/".data ++ proj ++ "/issues/".data ++ t ++ ")".data

/-- The token-replacement loop of `get_changes_for_build`, over an explicit
iteration order of the distinct tokens. -/
def linkifyTokens (proj : List Char) (tokens : List (List Char)) (line : List Char) : List Char :=
  tokens.foldl (fun s t => replaceAll ('#' :: t) (issueLink proj t) s) line

/-- UTF-8 bytes of one character (needed by the percent-encoder). -/
def utf8Bytes (c : Char) : List Nat :=
  let n := c.toNat
  if n < 0x80 then [n]
  else if n < 0x800 then [0xC0 + n / 64, 0x80 + n % 64]
  else if n < 0x10000 then [0xE0 + n / 4096, 0x80 + (n / 64) % 64, 0x80 + n % 64]
  else [0xF0 + n / 262144, 0x80 + (n / 4096) % 64, 0x80 + (n / 64) % 64, 0x80 + n % 64]

/-- Uppercase hexadecimal digit. -/
def hexDigitU (n : Nat) : Char :=
  if n < 10 then Char.ofNat (48 + n) else Char.ofNat (55 + n)

/-- Characters `urllib.parse.quote` leaves unescaped with `safe=""`:
ASCII alphanumerics and underscore, period, hyphen, tilde. -/
def quoteSafe (c : Char) : Bool :=
  c.isAlphanum || c == '_' || c == '.' || c == '-' || c == '~'

/-- `urllib.parse.quote(s, safe="")`: percent-encode every byte of every
non-safe character, uppercase hex. -/
def pyQuote (s : List Char) : List Char :=
  s.foldr
    (fun c acc =>
      (if quoteSafe c then [c]
       else (utf8Bytes c).foldr (fun b a => '%' :: hexDigitU (b / 16) :: hexDigitU (b % 16) :: a) []) ++ acc)
    []

/-- The commit deep link `https://github.com/PaperMC/project/commit/sha`. -/
def githubCommitUrl (proj sha : List Char) : List Char :=
  "https://github.com/PaperMC/".data ++ proj ++ "/commit/".data ++ sha

/-- One line of the change log: the loop body of `get_changes_for_build`. -/
def changeLine (proj : List Char) (commit : Commit) : List Char :=
  let commit_hash := commit.sha.data.take 7
  let summary := firstLineOf (pyStrip commit.message.data)
  let tokens := dedupFirst (findTokens summary)
  let summary := linkifyTokens proj tokens summary
  let encoded := pyQuote (githubCommitUrl proj commit.sha.data)
  "- [".data ++ commit_hash ++ "](https://diffs.dev/?github_url=".data ++ encoded ++ ") ".data ++ summary

/-- Join with a separator (`"\n".join(..)`). -/
def joinSep (sep : List Char) : List (List Char) → List Char
  | [] => []
  | [l] => l
  | l :: rest => l ++ sep ++ joinSep sep rest

/-- `PaperAPI.get_changes_for_build`: all commit lines joined by newlines,
with a trailing newline, or the empty string when there are no commits. -/
def get_changes_for_build (proj : String) (commits : List Commit) : String :=
  let change_lines := commits.map (changeLine proj.data)
  if change_lines.isEmpty then "" else String.mk (joinSep ['\n'] change_lines ++ ['\n'])

/-- Bool substring test used to state properties of formatter output. -/
def containsSub (s pat : List Char) : Bool :=
  (List.range (s.length + 1)).any (fun i => pat.isPrefixOf (s.drop i))

/-! ## Colors, string helpers and the build-date parser -/

/-- The `Color` enum values used by `CHANNEL_COLORS`. -/
def ColorBLUE : Nat := 0x2B7FFF
def ColorGREEN : Nat := 0x4ECB8B
def ColorRED : Nat := 0xEA5B6F
def ColorYELLOW : Nat := 0xFFC859

/-- Module-level `CHANNEL_COLORS` mapping. -/
def CHANNEL_COLORS : List (String × Nat) :=
  [("ALPHA", ColorRED), ("BETA", ColorYELLOW), ("STABLE", ColorBLUE), ("RECOMMENDED", ColorGREEN)]

/-- Module-level `PROJECT_IMAGE_URLS` mapping (waterfall has none). -/
def PROJECT_IMAGE_URLS : List (String × String) :=
  [("paper", "https://assets.papermc.io/brand/papermc_logo.512.png"),
   ("folia", "https://assets.papermc.io/brand/folia_logo.256x139.png"),
   ("velocity", "https://assets.papermc.io/brand/velocity_logo.256x128.png"),
   ("waterfall", "")]

/-- `PROJECT_IMAGE_URLS.get(project, "")` as computed in `PaperAPI.__init__`. -/
def projectImage (proj : String) : String :=
  (PROJECT_IMAGE_URLS.lookup proj).getD ""

/-- Python `str.upper()` (ASCII model, sufficient for channel names). -/
def pyUpper (s : String) : String :=
  String.mk (s.data.map Char.toUpper)

/-- Python `str.capitalize()`: first character uppercased, remainder
lowercased (ASCII model). -/
def pyCapitalize (s : String) : String :=
  match s.data with
  | [] => ""
  | c :: rest => String.mk (Char.toUpper c :: rest.map Char.toLower)

/-- Parsed fields of a build timestamp. -/
structure DateParts where
  year : Nat
  month : Nat
  day : Nat
  hour : Nat
  minute : Nat
  second : Nat
  tzOffsetSeconds : Int
deriving DecidableEq, Repr

/-- Read exactly `n` digits as a number, returning the rest of the input. -/
def takeDigitsN (n : Nat) (s : List Char) : Option (Nat × List Char) :=
  let ds := s.take n
  if ds.length = n && ds.all Char.isDigit then
    some (ds.foldl (fun a c => a * 10 + (c.toNat - 48)) 0, s.drop n)
  else none

/-- Expect one literal character. -/
def expectChar (c : Char) : List Char → Option (List Char)
  | x :: rest => if x == c then some rest else none
  | [] => none

/-- The timezone directive at the end of the string: `Z`, or a sign followed
by `HH:MM` or `HHMM`; the whole input must be consumed (as `strptime`
requires). -/
def parseTzTail : List Char → Option Int
  | ['Z'] => some 0
  | c :: rest =>
    if c == '+' || c == '-' then
      let sgn : Int := if c == '+' then 1 else -1
      match takeDigitsN 2 rest with
      | some (h, rest2) =>
        let rest3 := match rest2 with
          | ':' :: r => r
          | r => r
        match takeDigitsN 2 rest3 with
        | some (m, []) => some (sgn * (h * 3600 + m * 60))
        | _ => none
      | none => none
    else none
  | [] => none

/-- One `strptime` pass of `convert_build_date`, for the format
`%Y-%m-%dT%H:%M:%S[.%f]%z` (fractional seconds present iff `withMicro`).
Directives are modelled at their zero-padded widths; field ranges are
checked as `strptime` does (months 1-12, days 1-31, hours to 23, minutes to
59, seconds to 61). -/
def parseIso (withMicro : Bool) (s : List Char) : Option DateParts :=
  (takeDigitsN 4 s).bind fun (y, s) =>
  (expectChar '-' s).bind fun s =>
  (takeDigitsN 2 s).bind fun (mo, s) =>
  (expectChar '-' s).bind fun s =>
  (takeDigitsN 2 s).bind fun (d, s) =>
  (expectChar 'T' s).bind fun s =>
  (takeDigitsN 2 s).bind fun (h, s) =>
  (expectChar ':' s).bind fun s =>
  (takeDigitsN 2 s).bind fun (mi, s) =>
  (expectChar ':' s).bind fun s =>
  (takeDigitsN 2 s).bind fun (sec, s) =>
  (if withMicro then
     (expectChar '.' s).bind fun s =>
       let ds := s.takeWhile Char.isDigit
       if 1 ≤ ds.length && ds.length ≤ 6 then some (s.drop ds.length) else none
   else some s).bind fun s =>
  (parseTzTail s).bind fun tz =>
  if 1 ≤ mo && mo ≤ 12 && 1 ≤ d && d ≤ 31 && h ≤ 23 && mi ≤ 59 && sec ≤ 61 then
    some { year := y, month := mo, day := d, hour := h, minute := mi, second := sec, tzOffsetSeconds := tz }
  else none

/-- `convert_build_date`: try the microsecond format, then the plain one;
`none` models the `ValueError` escaping both attempts. -/
def convert_build_date (s : String) : Option DateParts :=
  match parseIso true s.data with
  | some d => some d
  | none => parseIso false s.data

/-- Days since the Unix epoch of a civil date (standard era computation). -/
def daysFromCivil (y m d : Int) : Int :=
  let y := if m ≤ 2 then y - 1 else y
  let era := (if 0 ≤ y then y else y - 399) / 400
  let yoe := y - era * 400
  let mp := if 2 < m then m - 3 else m + 9
  let doy := (153 * mp + 2) / 5 + d - 1
  let doe := yoe * 365 + yoe / 4 - yoe / 100 + doy
  era * 146097 + doe - 719468

/-- `int(dt.timestamp())` of the parsed date: Unix seconds. -/
def buildTimestamp (p : DateParts) : Int :=
  daysFromCivil p.year p.month p.day * 86400
    + (p.hour * 3600 + p.minute * 60 + p.second : Nat) - p.tzOffsetSeconds

/-! ## Build records, webhook payloads and the effect traces -/

/-- The `download` object of a build record (`url` key may be absent; the
whole object may be null or missing, modelled at the `BuildInfo` level). -/
structure DownloadInfo where
  url : Option String
deriving DecidableEq, Repr

/-- A build record as consumed from the fetch response (`build_info`). -/
structure BuildInfo where
  number : String
  channel : String
  download : Option DownloadInfo
  commits : List Commit
  createdAt : String
deriving DecidableEq, Repr

/-- The relevant content of the Discord webhook payload built by
`send_v2_webhook`.  String templating of the component texts is kept
structured: each field carries the data interpolated into the payload; the
`channel_banner` flag records whether the additional channel-transition
container is appended. -/
structure Payload where
  accent_color : Nat
  project : String
  channel_name : String
  latest_build : String
  latest_version : String
  build_time : Int
  image_url : String
  changes : String
  download_url : String
  drama : String
  channel_banner : Bool
deriving DecidableEq, Repr

/-- Observable side effects of one update check: the atomic persistence of a
new document, and a delivery attempt (with its payload) to one endpoint. -/
inductive Event where
  | persist (d : StateDoc)
  | webhookPost (url : String) (p : Payload)
deriving DecidableEq, Repr

/-- Event classifiers. -/
def Event.isWebhook : Event → Bool
  | .webhookPost _ _ => true
  | _ => false

def Event.isPersist : Event → Bool
  | .persist _ => true
  | _ => false

/-- Result of an effectful call: its emitted events and its return value,
`ret = none` modelling an exception escaping the call. -/
structure EffResult (α : Type) where
  events : List Event
  ret : Option α
deriving DecidableEq, Repr

/-- Run-wide configuration: the `DRY_RUN` flag, the configured webhook
endpoints, and the (external, decorative) drama string fetched once per
update. -/
structure RunCfg where
  dryRun : Bool
  webhookUrls : List String
  dramaText : String
deriving DecidableEq, Repr

/-- `send_v2_webhook`: the payload is built first — its `accent_color`
indexes `CHANNEL_COLORS` with the uppercased channel name, so an unknown
channel raises `KeyError` (`ret = none`) before any delivery attempt — and
then delivered (with retry) to the endpoint. -/
def send_v2_webhook (proj hook_url latest_build latest_version : String) (build_time : Int)
    (image_url changes download_url drama channel_name : String) (channel_changed : Bool) :
    EffResult Unit :=
  match CHANNEL_COLORS.lookup (pyUpper channel_name) with
  | none => { events := [], ret := none }
  | some color =>
    { events := [Event.webhookPost hook_url
        { accent_color := color
          project := proj
          channel_name := channel_name
          latest_build := latest_build
          latest_version := latest_version
          build_time := build_time
          image_url := image_url
          changes := changes
          download_url := download_url
          drama := drama
          channel_banner := channel_changed }]
      ret := some () }

/-- The `for hook in config.webhook_urls` loop of `_process_and_send_update`:
an exception from one send stops the loop and propagates. -/
def sendToHooks (cfg : RunCfg) (proj version_id build_id : String) (build_time : Int)
    (changes download_url channelCap : String) (channel_changed : Bool) :
    List String → EffResult Unit
  | [] => { events := [], ret := some () }
  | hook :: rest =>
    let r := send_v2_webhook proj hook build_id version_id build_time
      (projectImage proj) changes download_url cfg.dramaText channelCap channel_changed
    match r.ret with
    | none => { events := r.events, ret := none }
    | some _ =>
      let r' := sendToHooks cfg proj version_id build_id build_time
        changes download_url channelCap channel_changed rest
      { events := r.events ++ r'.events, ret := r'.ret }

/-- `_process_and_send_update`: dry run returns at once; a missing download
object or URL returns without sending; an unparsable `createdAt` returns
without sending; otherwise one webhook per configured endpoint is sent with
the capitalized channel name. -/
def process_and_send_update (cfg : RunCfg) (proj version_id : String) (b : BuildInfo)
    (channel_changed : Bool) : EffResult Unit :=
  if cfg.dryRun then { events := [], ret := some () }
  else
    let changes := get_changes_for_build proj b.commits
    match b.download with
    | none => { events := [], ret := some () }
    | some di =>
      match di.url with
      | none => { events := [], ret := some () }
      | some download_url =>
        match convert_build_date b.createdAt with
        | none => { events := [], ret := some () }
        | some dp =>
          sendToHooks cfg proj version_id b.number (buildTimestamp dp)
            changes download_url (pyCapitalize b.channel) channel_changed cfg.webhookUrls

/-- The legacy-branch channel-transition test of `_check_version_for_update`:
`stored_data.get("channel", None) is not None and
stored_data.get("channel", "") != channel_name` over `get_stored_data`. -/
def legacy_channel_changed (file : Option StateDoc) (channel_name : String) : Bool :=
  match (get_stored_data file).channel with
  | some (some c) => c != channel_name
  | some none => false
  | none => false

/-- The per-version channel-transition test of `_check_version_for_update`,
over the entry returned by `get_stored_data_for_version`. -/
def version_channel_changed (vd : VEntry) (channel_name : String) : Bool :=
  match vd.channel with
  | some (some c) => c != channel_name
  | some none => false
  | none => false

/-- `_check_version_for_update`.  `writeOk` injects a fault into the one
atomic state write: when false the write raises, the file is left unchanged
(see `atomic_write_json`) and the exception propagates (`ret = none`).
Returns the resulting file alongside the events and return value. -/
def check_version_for_update (cfg : RunCfg) (proj : String) (writeOk : Bool)
    (file : Option StateDoc) (version_id : String) (b : BuildInfo) (use_legacy_storage : Bool) :
    Option StateDoc × EffResult Bool :=
  if use_legacy_storage then
    let updated := up_to_date file version_id b.number
    let channel_changed := legacy_channel_changed file b.channel
    if !updated then
      if writeOk then
        let d' := write_to_json_doc version_id b.number b.channel
        let pr := process_and_send_update cfg proj version_id b channel_changed
        (some d', { events := Event.persist d' :: pr.events, ret := pr.ret.map fun _ => true })
      else (file, { events := [], ret := none })
    else (file, { events := [], ret := some false })
  else
    let updated := up_to_date_for_version file version_id b.number
    let svd := get_stored_data_for_version file version_id
    let channel_changed := version_channel_changed svd b.channel
    if !updated then
      if writeOk then
        let d' := write_version_to_json_doc file version_id b.number b.channel
        let pr := process_and_send_update cfg proj version_id b channel_changed
        (some d', { events := Event.persist d' :: pr.events, ret := pr.ret.map fun _ => true })
      else (file, { events := [], ret := none })
    else (file, { events := [], ret := some false })

/-! ## Webhook retry (`_send_webhook_with_retry`) -/

/-- Outcome of one `requests.post` attempt: success, a transport error
(`requests.RequestException`), or any other exception. -/
inductive AttemptOutcome where
  | success
  | transportErr
  | otherErr
deriving DecidableEq, Repr

/-- Observable result of the retry loop: the returned boolean, the number of
delivery attempts made, and the backoff sleeps performed, in order. -/
structure RetryResult where
  ok : Bool
  attempts : Nat
  sleeps : List Nat
deriving DecidableEq, Repr

/-- The `for attempt in range(max_retries)` loop body, fuel-indexed by the
remaining iterations.  A transport error on a non-final attempt sleeps
`2 ** attempt` seconds and retries; on the final attempt it returns false
without sleeping; any other exception returns false at once. -/
def retryGo (outcomes : Nat → AttemptOutcome) (max_retries : Nat) (attempt : Nat) :
    Nat → RetryResult
  | 0 => { ok := false, attempts := 0, sleeps := [] }
  | fuel + 1 =>
    match outcomes attempt with
    | .success => { ok := true, attempts := 1, sleeps := [] }
    | .otherErr => { ok := false, attempts := 1, sleeps := [] }
    | .transportErr =>
      if attempt < max_retries - 1 then
        let r := retryGo outcomes max_retries (attempt + 1) fuel
        { ok := r.ok, attempts := r.attempts + 1, sleeps := 2 ^ attempt :: r.sleeps }
      else { ok := false, attempts := 1, sleeps := [] }

/-- `_send_webhook_with_retry` with the attempt outcomes given by an oracle
(the i-th attempt's result is `outcomes i`). -/
def send_webhook_with_retry (outcomes : Nat → AttemptOutcome) (max_retries : Nat := 3) :
    RetryResult :=
  retryGo outcomes max_retries 0 max_retries

/-! ## Atomic state write (`_atomic_write_json`) -/

/-- The two files `_atomic_write_json` touches: the state file and its
sibling `.tmp` path; `none` = file does not exist. -/
structure FS where
  main : Option String
  tmp : Option String
deriving DecidableEq, Repr

/-- Fault injection for `_atomic_write_json`: the dump into the temporary
file may raise (leaving arbitrary partial content there), or the rename may
raise; otherwise the write succeeds. -/
inductive WriteFault where
  | ok
  | duringDump
  | duringReplace
deriving DecidableEq, Repr

/-- Result of a modelled `_atomic_write_json` call: whether it raised, the
final filesystem, and the intermediate filesystem states observable if the
process died before the call completed (all states before the rename). -/
structure AtomicWriteResult where
  raised : Bool
  fs : FS
  mids : List FS
deriving DecidableEq, Repr

/-- `_atomic_write_json`: serialize to the sibling `.tmp` file, then rename
it over the target.  On an exception the temporary file is unlinked and the
exception re-raised. `midContent` is whatever partial content a failing dump
left behind. -/
def atomic_write_json (content : String) (midContent : Option String) (fault : WriteFault)
    (fs : FS) : AtomicWriteResult :=
  match fault with
  | .duringDump =>
    let mid : FS := { fs with tmp := midContent }
    { raised := true, fs := { mid with tmp := none }, mids := [mid] }
  | .duringReplace =>
    let mid : FS := { fs with tmp := some content }
    { raised := true, fs := { mid with tmp := none }, mids := [mid] }
  | .ok =>
    let mid : FS := { fs with tmp := some content }
    { raised := false, fs := { main := some content, tmp := none }, mids := [mid] }

/-! ## Spec-side view of the stored build (for the refinement claim C3) -/

/-- Modelled from the spec: "the stored build_id for the relevant key", with
absent prior state as `none`.  In legacy mode the legacy slot holds a build
for the stored version only; in per-version mode the `versions` entry (or,
for a legacy-shape document, the legacy slot) holds it.  This definition
follows the spec's words and is compared against the source's
`up_to_date` / `up_to_date_for_version` in the C3 theorem. -/
def specStoredBuild (use_legacy_storage : Bool) (file : Option StateDoc) (version : String) :
    Option String :=
  let d := readStateFile file
  if use_legacy_storage then
    if d.version.getD "" = version then some (d.build.getD "") else none
  else
    match d.versions with
    | some m => (m.lookup version).bind VEntry.build
    | none =>
      match d.version, d.build with
      | some v, some b => if v = version then some b else none
      | _, _ => none

/-- A sample configuration and build used in concrete checks below. -/
def sampleCfg : RunCfg :=
  { dryRun := false, webhookUrls := ["https://hook.example/a"], dramaText := "There is no drama" }

def sampleBuild : BuildInfo :=
  { number := "123"
    channel := "STABLE"
    download := some { url := some "https://api.papermc.io/paper-1.21.1-123.jar" }
    commits := []
    createdAt := "2025-10-12T12:00:00.000Z" }

/-- Whether an event is a delivery whose payload carries the
channel-transition banner container. -/
def Event.bannerSent : Event → Bool
  | .webhookPost _ p => p.channel_banner
  | _ => false

/-- A prior persisted document in the legacy single-version shape, tracking
version 1.20 (used by the C4 counterexample). -/
def c4LegacyDoc : StateDoc :=
  { versions := none, version := some "1.20", build := some "99", channel := some (some "STABLE") }

/-- A prior persisted document already in the multi-version shape (used by
the C4 witness). -/
def c4MultiDoc : StateDoc :=
  { versions := some [("1.21.1", { build := some "123", channel := some (some "STABLE") })]
    version := some "1.21.1", build := some "123", channel := some (some "STABLE") }

/-- The document `_check_version_for_update` persists when it detects a new
build, in each storage mode. -/
def writtenDoc (use_legacy_storage : Bool) (file : Option StateDoc) (version_id : String)
    (b : BuildInfo) : StateDoc :=
  if use_legacy_storage then write_to_json_doc version_id b.number b.channel
  else write_version_to_json_doc file version_id b.number b.channel

/-- The commit exhibiting the C7 issue-link interference. -/
def c7Commit : Commit :=
  { sha := "abc123def456789", message := "Fix #123 and #1234" }

/-! ## Sanity evaluations and helper lemmas -/

example : findTokens "Fix #1234 and close #5678".data = ["1234".data, "5678".data] := by decide
example : convert_commit_hash_to_short "abc123def456789" = "abc123d" := by decide
example : containsSub (changeLine "paper".data { sha := "abc", message := "Fix #12" }) "issues/12".data = true := by decide

example : up_to_date none "1.21.1" "123" = false := by decide
example : up_to_date (some (write_to_json_doc "1.21.1" "123" "STABLE")) "1.21.1" "123" = true := by decide
example : up_to_date_for_version (some (write_version_to_json_doc none "1.21.1" "123" "STABLE")) "1.21.1" "123" = true := by decide

example : convert_build_date "2025-10-12T12:00:00.000Z" =
    some { year := 2025, month := 10, day := 12, hour := 12, minute := 0, second := 0, tzOffsetSeconds := 0 } := by decide
example : convert_build_date "2022-06-14T10:40:30Z" ≠ none := by decide
example : convert_build_date "invalid-date" = none := by decide
example : convert_build_date "" = none := by decide
example : convert_build_date "2025-10-12T12:00:00.000+00:00" ≠ none := by decide

example :
    (check_version_for_update sampleCfg "paper" true none "1.21.1" sampleBuild true).2.ret
      = some true := by decide

example :
    (check_version_for_update sampleCfg "paper" true none "1.21.1" sampleBuild true).2.events.length
      = 2 := by decide


theorem lookup_dictInsert_self (m : List (String × VEntry)) (k : String) (v : VEntry) :
    (dictInsert m k v).lookup k = some v := by
  induction m with
  | nil => simp [dictInsert, List.lookup]
  | cons hd tl ih =>
    obtain ⟨k', v'⟩ := hd
    by_cases h : k' = k
    · simp [dictInsert, h, List.lookup]
    · have hkk : (k == k') = false := beq_eq_false_iff_ne.mpr (Ne.symm h)
      simp [dictInsert, h, List.lookup, hkk, ih]

theorem lookup_dictInsert_ne (m : List (String × VEntry)) (k W : String) (v : VEntry)
    (h : W ≠ k) : (dictInsert m k v).lookup W = m.lookup W := by
  have hWk : (W == k) = false := beq_eq_false_iff_ne.mpr h
  induction m with
  | nil => simp [dictInsert, List.lookup, hWk]
  | cons hd tl ih =>
    obtain ⟨k', v'⟩ := hd
    by_cases hk : k' = k
    · subst hk
      simp [dictInsert, List.lookup, hWk]
    · by_cases hw : W = k'
      · simp [dictInsert, List.lookup, hk, hw, List.lookup_cons]
      · have hwk : (W == k') = false := beq_eq_false_iff_ne.mpr hw
        simp [dictInsert, List.lookup, hk, hwk, ih]

theorem sendToHooks_events_webhook (cfg : RunCfg) (proj version_id build_id : String)
    (build_time : Int) (changes download_url channelCap : String) (channel_changed : Bool)
    (hooks : List String) :
    ((sendToHooks cfg proj version_id build_id build_time changes download_url channelCap
        channel_changed hooks).events.all Event.isWebhook) = true := by
  induction hooks with
  | nil => simp [sendToHooks]
  | cons hook rest ih =>
    simp only [sendToHooks, send_v2_webhook]
    cases CHANNEL_COLORS.lookup (pyUpper channelCap) with
    | none => simp [Event.isWebhook]
    | some color => simp [Event.isWebhook, ih]

theorem sendToHooks_ret_some (cfg : RunCfg) (proj version_id build_id : String)
    (build_time : Int) (changes download_url channelCap : String) (channel_changed : Bool)
    (hooks : List String)
    (h : CHANNEL_COLORS.lookup (pyUpper channelCap) ≠ none) :
    (sendToHooks cfg proj version_id build_id build_time changes download_url channelCap
        channel_changed hooks).ret = some () := by
  induction hooks with
  | nil => simp [sendToHooks]
  | cons hook rest ih =>
    simp only [sendToHooks, send_v2_webhook]
    cases hc : CHANNEL_COLORS.lookup (pyUpper channelCap) with
    | none => exact absurd hc h
    | some color => simpa using ih

theorem process_events_webhook (cfg : RunCfg) (proj version_id : String) (b : BuildInfo)
    (cc : Bool) :
    ((process_and_send_update cfg proj version_id b cc).events.all Event.isWebhook) = true := by
  unfold process_and_send_update
  split
  · simp
  · cases hd : b.download with
    | none => simp
    | some di =>
      cases hu : di.url with
      | none => simp [hu]
      | some u =>
        cases hc : convert_build_date b.createdAt with
        | none => simp [hu, hc]
        | some dp => simpa [hu, hc] using sendToHooks_events_webhook ..

theorem process_ret_some (cfg : RunCfg) (proj version_id : String) (b : BuildInfo) (cc : Bool)
    (h : CHANNEL_COLORS.lookup (pyUpper (pyCapitalize b.channel)) ≠ none) :
    (process_and_send_update cfg proj version_id b cc).ret = some () := by
  unfold process_and_send_update
  split
  · simp
  · cases hd : b.download with
    | none => simp
    | some di =>
      cases hu : di.url with
      | none => simp [hu]
      | some u =>
        cases hc : convert_build_date b.createdAt with
        | none => simp [hu, hc]
        | some dp =>
            simpa [hu, hc] using
              sendToHooks_ret_some cfg proj version_id b.number (buildTimestamp dp)
                (get_changes_for_build proj b.commits) u (pyCapitalize b.channel) cc
                cfg.webhookUrls h

theorem process_skips_delivery (cfg : RunCfg) (proj version_id : String) (b : BuildInfo)
    (cc : Bool)
    (h : cfg.dryRun = true ∨ b.download.bind DownloadInfo.url = none
        ∨ convert_build_date b.createdAt = none) :
    process_and_send_update cfg proj version_id b cc = { events := [], ret := some () } := by
  unfold process_and_send_update
  rcases h with h | h | h
  · simp [h]
  · split
    · rfl
    · cases hd : b.download with
      | none => simp
      | some di =>
        cases hu : di.url with
        | none => simp [hu]
        | some u => simp [hd, hu] at h
  · split
    · rfl
    · cases hd : b.download with
      | none => simp
      | some di =>
        cases hu : di.url with
        | none => simp [hu]
        | some u => simp [hu, h]

theorem up_to_date_eq_spec (file : Option StateDoc) (v b : String) :
    up_to_date file v b = (specStoredBuild true file v == some b) := by
  unfold up_to_date specStoredBuild
  by_cases h : (readStateFile file).version.getD "" = v <;> simp [h]

theorem up_to_date_for_version_eq_spec (file : Option StateDoc) (v b : String) :
    up_to_date_for_version file v b = (specStoredBuild false file v == some b) := by
  unfold up_to_date_for_version specStoredBuild
  cases hm : (readStateFile file).versions with
  | some m =>
    cases hl : (m.lookup v) with
    | none => simp [hm, hl]
    | some e => simp [hm, hl]
  | none =>
    cases hv : (readStateFile file).version with
    | none => simp [hm, hv]
    | some v' =>
      cases hb : (readStateFile file).build with
      | none => simp [hm, hv, hb]
      | some b' =>
        by_cases h : v' = v <;> simp [hm, hv, hb, h]

theorem up_to_date_write_doc (v b c : String) :
    up_to_date (some (write_to_json_doc v b c)) v b = true := by
  simp [up_to_date, write_to_json_doc, readStateFile]

theorem up_to_date_for_version_write_doc (file : Option StateDoc) (v b c : String) :
    up_to_date_for_version (some (write_version_to_json_doc file v b c)) v b = true := by
  simp [up_to_date_for_version, write_version_to_json_doc, readStateFile,
    lookup_dictInsert_self]

/-! ## Claim theorems -/

/-- C5: after any successful state write of the triple (version, build,
channel) — `write_to_json` in legacy mode or `write_version_to_json` in
per-version mode — the persisted document's legacy fields equal the
just-written triple, and the stored data for `version` (the `versions`
entry, read through the store's own per-version lookup, which interprets a
legacy-shape document as its single-version equivalent) records the written
build and channel. -/
theorem write_invariant_legacy_and_version (file : Option StateDoc) (v b c : String) :
    ((write_version_to_json_doc file v b c).versions.getD []).lookup v
        = some { build := some b, channel := some (some c) }
    ∧ (write_version_to_json_doc file v b c).version = some v
    ∧ (write_version_to_json_doc file v b c).build = some b
    ∧ (write_version_to_json_doc file v b c).channel = some (some c)
    ∧ get_stored_data_for_version (some (write_version_to_json_doc file v b c)) v
        = { build := some b, channel := some (some c) }
    ∧ (write_to_json_doc v b c).version = some v
    ∧ (write_to_json_doc v b c).build = some b
    ∧ (write_to_json_doc v b c).channel = some (some c)
    ∧ get_stored_data_for_version (some (write_to_json_doc v b c)) v
        = { build := some b, channel := some (some c) } := by
  refine ⟨?_, rfl, rfl, rfl, ?_, rfl, rfl, rfl, ?_⟩
  · simp [write_version_to_json_doc, lookup_dictInsert_self]
  · simp [get_stored_data_for_version, write_version_to_json_doc, readStateFile,
      lookup_dictInsert_self]
  · simp [get_stored_data_for_version, write_to_json_doc, readStateFile]

/-- C4 counterexample: a prior document in the legacy single-version shape
(tracking version 1.20) is not preserved by `write_version_to_json` for a
different version 1.21 — the stored data for 1.20 changes from its legacy
values to the empty default, so the claim's frame property fails on
legacy-shape documents. -/
theorem write_version_legacy_loss_cex :
    get_stored_data_for_version (some c4LegacyDoc) "1.20"
        = { build := some "99", channel := some (some "STABLE") }
    ∧ get_stored_data_for_version
          (some (write_version_to_json_doc (some c4LegacyDoc) "1.21" "120" "BETA")) "1.20"
        = { build := some "", channel := some none }
    ∧ get_stored_data_for_version
          (some (write_version_to_json_doc (some c4LegacyDoc) "1.21" "120" "BETA")) "1.20"
        ≠ get_stored_data_for_version (some c4LegacyDoc) "1.20" := by
  decide

/-- C4 (amended): `write_version_to_json` for version V changes only
`versions[V]` and the legacy mirror fields provided the prior document
already contains a `versions` map; then for every other version W the stored
data for W is unchanged.  (A prior document in the legacy single-version
shape is replaced wholesale, so its data for versions other than V is lost —
see the counterexample.) -/
theorem write_version_frame (file : Option StateDoc) (v b c W : String)
    (m : List (String × VEntry)) (hm : (readStateFile file).versions = some m)
    (hW : W ≠ v) :
    ((write_version_to_json_doc file v b c).versions.getD []).lookup W = m.lookup W
    ∧ get_stored_data_for_version (some (write_version_to_json_doc file v b c)) W
        = get_stored_data_for_version file W := by
  have hv' : (write_version_to_json_doc file v b c).versions
      = some (dictInsert m v { build := some b, channel := some (some c) }) := by
    simp [write_version_to_json_doc, hm]
  have hrhs : get_stored_data_for_version file W
      = (m.lookup W).getD { build := some "", channel := some none } := by
    unfold get_stored_data_for_version
    simp only []
    rw [hm]
  constructor
  · simp [write_version_to_json_doc, hm, lookup_dictInsert_ne _ _ _ _ hW]
  · rw [hrhs]
    simp [get_stored_data_for_version, readStateFile, hv',
      lookup_dictInsert_ne _ _ _ _ hW]

/-- C4 witness: a concrete multi-version document; writing 1.21 leaves the
stored data for 1.21.1 unchanged. -/
theorem write_version_frame_witness :
    get_stored_data_for_version
        (some (write_version_to_json_doc (some c4MultiDoc) "1.21" "120" "BETA")) "1.21.1"
      = get_stored_data_for_version (some c4MultiDoc) "1.21.1" :=
  (write_version_frame (some c4MultiDoc) "1.21" "120" "BETA" "1.21.1" _ rfl
    (by decide)).2

/-- C6: `_atomic_write_json` writes to the sibling temporary path and then
renames it into place: for either injected failure (during the dump or
during the rename), every filesystem state observable before the call
completes leaves the previously persisted file content unchanged, the final
state has the temporary file removed and the error propagated; on success
the target holds the new content. -/
theorem atomic_write_json_safe (content : String) (midContent : Option String) (fs : FS) :
    ((atomic_write_json content midContent .duringDump fs).raised = true
      ∧ (atomic_write_json content midContent .duringDump fs).fs.main = fs.main
      ∧ (atomic_write_json content midContent .duringDump fs).fs.tmp = none
      ∧ ((atomic_write_json content midContent .duringDump fs).mids.all
          fun s => s.main == fs.main) = true)
    ∧ ((atomic_write_json content midContent .duringReplace fs).raised = true
      ∧ (atomic_write_json content midContent .duringReplace fs).fs.main = fs.main
      ∧ (atomic_write_json content midContent .duringReplace fs).fs.tmp = none
      ∧ ((atomic_write_json content midContent .duringReplace fs).mids.all
          fun s => s.main == fs.main) = true)
    ∧ ((atomic_write_json content midContent .ok fs).raised = false
      ∧ (atomic_write_json content midContent .ok fs).fs.main = some content
      ∧ (atomic_write_json content midContent .ok fs).fs.tmp = none
      ∧ ((atomic_write_json content midContent .ok fs).mids.all
          fun s => s.main == fs.main) = true) := by
  simp [atomic_write_json]

theorem check_events_shape (cfg : RunCfg) (proj : String) (writeOk : Bool)
    (file : Option StateDoc) (version_id : String) (b : BuildInfo) (use_legacy_storage : Bool) :
    (∃ d ws, (check_version_for_update cfg proj writeOk file version_id b
          use_legacy_storage).2.events = Event.persist d :: ws
        ∧ ws.all Event.isWebhook = true)
    ∨ (check_version_for_update cfg proj writeOk file version_id b
          use_legacy_storage).2.events = [] := by
  cases use_legacy_storage with
  | true =>
    cases hup : up_to_date file version_id b.number with
    | true => exact Or.inr (by simp [check_version_for_update, hup])
    | false =>
      cases writeOk with
      | true =>
        refine Or.inl ⟨write_to_json_doc version_id b.number b.channel,
          (process_and_send_update cfg proj version_id b
            (legacy_channel_changed file b.channel)).events, ?_, process_events_webhook ..⟩
        simp [check_version_for_update, hup]
      | false => exact Or.inr (by simp [check_version_for_update, hup])
  | false =>
    cases hup : up_to_date_for_version file version_id b.number with
    | true => exact Or.inr (by simp [check_version_for_update, hup])
    | false =>
      cases writeOk with
      | true =>
        refine Or.inl ⟨write_version_to_json_doc file version_id b.number b.channel,
          (process_and_send_update cfg proj version_id b
            (version_channel_changed (get_stored_data_for_version file version_id)
              b.channel)).events, ?_, process_events_webhook ..⟩
        simp [check_version_for_update, hup]
      | false => exact Or.inr (by simp [check_version_for_update, hup])

theorem check_write_fail (cfg : RunCfg) (proj : String) (file : Option StateDoc)
    (version_id : String) (b : BuildInfo) (use_legacy_storage : Bool)
    (h : (if use_legacy_storage then up_to_date file version_id b.number
          else up_to_date_for_version file version_id b.number) = false) :
    (check_version_for_update cfg proj false file version_id b use_legacy_storage).2.ret = none
    ∧ (check_version_for_update cfg proj false file version_id b use_legacy_storage).2.events = []
    ∧ (check_version_for_update cfg proj false file version_id b use_legacy_storage).1 = file := by
  cases use_legacy_storage with
  | false =>
    simp only [Bool.false_eq_true, if_false] at h
    simp [check_version_for_update, h]
  | true =>
    simp only [if_true] at h
    simp [check_version_for_update, h]

/-- C1: for every detected update, in both storage modes, the new state is
persisted (the `persist` event) strictly before any webhook delivery — the
event trace is either empty or the persist event followed only by webhook
events — and when the persistence write raises, the exception propagates
(`ret = none`) and no webhook delivery is attempted (empty trace, file
unchanged). -/
theorem check_persists_before_delivery (cfg : RunCfg) (proj : String) (writeOk : Bool)
    (file : Option StateDoc) (version_id : String) (b : BuildInfo) (use_legacy_storage : Bool) :
    ((∃ d ws, (check_version_for_update cfg proj writeOk file version_id b
          use_legacy_storage).2.events = Event.persist d :: ws
        ∧ ws.all Event.isWebhook = true)
      ∨ (check_version_for_update cfg proj writeOk file version_id b
          use_legacy_storage).2.events = [])
    ∧ ((if use_legacy_storage then up_to_date file version_id b.number
        else up_to_date_for_version file version_id b.number) = false →
       writeOk = false →
       (check_version_for_update cfg proj writeOk file version_id b
          use_legacy_storage).2.ret = none
       ∧ (check_version_for_update cfg proj writeOk file version_id b
          use_legacy_storage).2.events = []
       ∧ (check_version_for_update cfg proj writeOk file version_id b
          use_legacy_storage).1 = file) := by
  refine ⟨check_events_shape .., fun h hw => ?_⟩
  subst hw
  exact check_write_fail cfg proj file version_id b use_legacy_storage h

/-- C1 witness: concrete first-run update with a failing write — no events,
exception propagated, file unchanged. -/
theorem check_persists_before_delivery_witness :
    (check_version_for_update sampleCfg "paper" false none "1.21.1" sampleBuild true).2.ret = none
    ∧ (check_version_for_update sampleCfg "paper" false none "1.21.1" sampleBuild
        true).2.events = []
    ∧ (check_version_for_update sampleCfg "paper" false none "1.21.1" sampleBuild true).1
        = none :=
  (check_persists_before_delivery sampleCfg "paper" false none "1.21.1" sampleBuild true).2
    (by decide) rfl

/-- C3: with a successful write and a channel whose color is known, the check
notifies — returns true and persists the fresh document — exactly when the
stored build id for the relevant key (spec view `specStoredBuild`) differs
from the fetched build id, absent state counting as different; when the
stored build id matches (in particular on a channel-only change), nothing is
written, no event is emitted and false is returned. -/
theorem notify_iff_stored_build_differs (cfg : RunCfg) (proj : String)
    (file : Option StateDoc) (version_id : String) (b : BuildInfo) (use_legacy_storage : Bool)
    (hcolor : CHANNEL_COLORS.lookup (pyUpper (pyCapitalize b.channel)) ≠ none) :
    ((check_version_for_update cfg proj true file version_id b use_legacy_storage).2.ret
        = some true
      ↔ specStoredBuild use_legacy_storage file version_id ≠ some b.number)
    ∧ (specStoredBuild use_legacy_storage file version_id = some b.number →
        (check_version_for_update cfg proj true file version_id b use_legacy_storage)
          = (file, { events := [], ret := some false }))
    ∧ (specStoredBuild use_legacy_storage file version_id ≠ some b.number →
        (check_version_for_update cfg proj true file version_id b use_legacy_storage).1
          = some (writtenDoc use_legacy_storage file version_id b)) := by
  cases use_legacy_storage with
  | false =>
    by_cases hsb : specStoredBuild false file version_id = some b.number
    · have hup : up_to_date_for_version file version_id b.number = true := by
        rw [up_to_date_for_version_eq_spec]
        simp [hsb]
      refine ⟨?_, fun _ => ?_, fun hne => absurd hsb hne⟩
      · simp [check_version_for_update, hup, hsb]
      · simp [check_version_for_update, hup]
    · have hup : up_to_date_for_version file version_id b.number = false := by
        rw [up_to_date_for_version_eq_spec]
        simp [hsb]
      have hret := process_ret_some cfg proj version_id b
        (version_channel_changed (get_stored_data_for_version file version_id) b.channel) hcolor
      refine ⟨?_, fun heq => absurd heq hsb, fun _ => ?_⟩
      · simp [check_version_for_update, hup, hret, hsb]
      · simp [check_version_for_update, hup, writtenDoc]
  | true =>
    by_cases hsb : specStoredBuild true file version_id = some b.number
    · have hup : up_to_date file version_id b.number = true := by
        rw [up_to_date_eq_spec]
        simp [hsb]
      refine ⟨?_, fun _ => ?_, fun hne => absurd hsb hne⟩
      · simp [check_version_for_update, hup, hsb]
      · simp [check_version_for_update, hup]
    · have hup : up_to_date file version_id b.number = false := by
        rw [up_to_date_eq_spec]
        simp [hsb]
      have hret := process_ret_some cfg proj version_id b
        (legacy_channel_changed file b.channel) hcolor
      refine ⟨?_, fun heq => absurd heq hsb, fun _ => ?_⟩
      · simp [check_version_for_update, hup, hret, hsb]
      · simp [check_version_for_update, hup, writtenDoc]

/-- C3 witness: first run in legacy mode on a STABLE build notifies; a
second check at the same stored build (channel changed to BETA) does not. -/
theorem notify_iff_stored_build_differs_witness :
    (check_version_for_update sampleCfg "paper" true none "1.21.1" sampleBuild true).2.ret
      = some true
    ∧ check_version_for_update sampleCfg "paper" true
        (some (write_to_json_doc "1.21.1" "123" "STABLE")) "1.21.1"
        { sampleBuild with channel := "BETA" } true
      = (some (write_to_json_doc "1.21.1" "123" "STABLE"),
         { events := [], ret := some false }) := by
  constructor
  · exact (notify_iff_stored_build_differs sampleCfg "paper" none "1.21.1" sampleBuild true
      (by decide)).1.mpr (by decide)
  · exact (notify_iff_stored_build_differs sampleCfg "paper"
      (some (write_to_json_doc "1.21.1" "123" "STABLE")) "1.21.1"
      { sampleBuild with channel := "BETA" } true (by decide)).2.1 (by decide)

/-- C9: whenever a new build is detected (and the write succeeds), the new
state is persisted before any delivery-side check — under dry run, a
missing download URL, or an unparsable `createdAt`, `_process_and_send_update`
returns without any webhook delivery, yet the file already records the new
build (the trace is exactly the persist event and the check returns true);
consequently a later check of the same version and build, under any
configuration, reports up to date with no events and no state change. -/
theorem state_written_when_delivery_skipped (cfg : RunCfg) (proj : String)
    (file : Option StateDoc) (version_id : String) (b : BuildInfo) (use_legacy_storage : Bool)
    (hnew : (if use_legacy_storage then up_to_date file version_id b.number
        else up_to_date_for_version file version_id b.number) = false)
    (hguard : cfg.dryRun = true ∨ b.download.bind DownloadInfo.url = none
        ∨ convert_build_date b.createdAt = none) :
    check_version_for_update cfg proj true file version_id b use_legacy_storage
      = (some (writtenDoc use_legacy_storage file version_id b),
         { events := [Event.persist (writtenDoc use_legacy_storage file version_id b)],
           ret := some true })
    ∧ ∀ (cfg₂ : RunCfg) (writeOk₂ : Bool),
        check_version_for_update cfg₂ proj writeOk₂
            (some (writtenDoc use_legacy_storage file version_id b)) version_id b
            use_legacy_storage
          = (some (writtenDoc use_legacy_storage file version_id b),
             { events := [], ret := some false }) := by
  cases use_legacy_storage with
  | true =>
    simp only [if_true] at hnew
    have hp := process_skips_delivery cfg proj version_id b
      (legacy_channel_changed file b.channel) hguard
    constructor
    · simp [check_version_for_update, hnew, hp, writtenDoc]
    · intro cfg₂ writeOk₂
      simp [check_version_for_update, writtenDoc, up_to_date_write_doc]
  | false =>
    simp only [Bool.false_eq_true, if_false] at hnew
    have hp := process_skips_delivery cfg proj version_id b
      (version_channel_changed (get_stored_data_for_version file version_id) b.channel) hguard
    constructor
    · simp [check_version_for_update, hnew, hp, writtenDoc]
    · intro cfg₂ writeOk₂
      simp [check_version_for_update, writtenDoc, up_to_date_for_version_write_doc]

/-- C9 witness: per-version first run in dry-run mode — the state is
written, no webhook event appears, and a later non-dry run of the same
build stays silent. -/
theorem state_written_when_delivery_skipped_witness :
    check_version_for_update { sampleCfg with dryRun := true } "paper" true none "1.21.1"
        sampleBuild false
      = (some (writtenDoc false none "1.21.1" sampleBuild),
         { events := [Event.persist (writtenDoc false none "1.21.1" sampleBuild)],
           ret := some true })
    ∧ check_version_for_update sampleCfg "paper" true
        (some (writtenDoc false none "1.21.1" sampleBuild)) "1.21.1" sampleBuild false
      = (some (writtenDoc false none "1.21.1" sampleBuild),
         { events := [], ret := some false }) := by
  have h := state_written_when_delivery_skipped { sampleCfg with dryRun := true } "paper"
    none "1.21.1" sampleBuild false (by decide) (Or.inl rfl)
  exact ⟨h.1, h.2 sampleCfg true⟩

/-- C2 (bug exhibit): on a first-ever observation in legacy mode (no state
file), `get_stored_data` normalises the missing channel to the empty string,
so the legacy channel-transition test computes true for a STABLE build and
the sent payload carries the channel-transition banner; the per-version test
on the same first observation computes false. -/
theorem first_observation_channel_flag_bug :
    legacy_channel_changed none "STABLE" = true
    ∧ version_channel_changed (get_stored_data_for_version none "1.21.1") "STABLE" = false
    ∧ ((check_version_for_update sampleCfg "paper" true none "1.21.1" sampleBuild
        true).2.events.any Event.bannerSent) = true
    ∧ ((check_version_for_update sampleCfg "paper" true none "1.21.1" sampleBuild
        false).2.events.any Event.bannerSent) = false := by
  refine ⟨by decide, by decide, by decide, by decide⟩

/-- C7 (bug exhibit): on a first line containing both of the distinct tokens
123 and 1234 (one a proper prefix of the other), the replacement loop
misbehaves under either iteration order of the token set.  Under the
first-occurrence order (token 123 first, as the model iterates), the literal
occurrence of the longer token is rewritten as the issue-123 link followed
by a stray digit, and no link to issue 1234 appears anywhere in the output;
under the reverse order, the output contains a nested, double-wrapped link.
This contradicts "exactly one link per occurrence and never nested". -/
theorem issue_link_prefix_interference_bug :
    findTokens "Fix #123 and #1234".data = ["123".data, "1234".data]
    ∧ containsSub (get_changes_for_build "paper" [c7Commit]).data
        "[#123](https://github.com/PaperMC/paper/issues/123)4".data = true
    ∧ containsSub (get_changes_for_build "paper" [c7Commit]).data
        "issues/1234".data = false
    ∧ containsSub (linkifyTokens "paper".data ["1234".data, "123".data]
          "Fix #123 and #1234".data)
        "[[#123](https://github.com/PaperMC/paper/issues/123)4](https://github.com/PaperMC/paper/issues/1234)".data
        = true := by
  refine ⟨by decide, by decide, by decide, by decide⟩

/-- C8: the retry loop makes at most three delivery attempts; it sleeps
exactly `2 ^ i` seconds after the i-th failed non-final attempt and never
after the final one (so the sleep list is always the prefix 1, 2 of the
backoff sequence determined by the attempt count); and when no attempt
succeeds it returns false. -/
theorem webhook_retry_budget (outcomes : Nat → AttemptOutcome) :
    (send_webhook_with_retry outcomes).attempts ≤ 3
    ∧ (send_webhook_with_retry outcomes).sleeps
        = (List.range ((send_webhook_with_retry outcomes).attempts - 1)).map (fun i => 2 ^ i)
    ∧ ((∀ i, i < (send_webhook_with_retry outcomes).attempts → outcomes i ≠ .success) →
        (send_webhook_with_retry outcomes).ok = false) := by
  rcases h0 : outcomes 0 with _ | _ | _ <;> rcases h1 : outcomes 1 with _ | _ | _ <;>
    rcases h2 : outcomes 2 with _ | _ | _ <;>
    refine ⟨?_, ?_, ?_⟩ <;>
    simp_all [send_webhook_with_retry, retryGo, List.range_succ] <;>
    first
      | exact ⟨0, by omega, h0⟩
      | exact ⟨1, by omega, h1⟩
      | exact ⟨2, by omega, h2⟩

/-- C8 witness: all three attempts fail with transport errors — three
attempts, sleeps of one and two seconds between them, and false returned. -/
theorem webhook_retry_budget_witness :
    (send_webhook_with_retry (fun _ => AttemptOutcome.transportErr)).ok = false
    ∧ (send_webhook_with_retry (fun _ => AttemptOutcome.transportErr)).attempts = 3
    ∧ (send_webhook_with_retry (fun _ => AttemptOutcome.transportErr)).sleeps = [1, 2] := by
  refine ⟨(webhook_retry_budget (fun _ => AttemptOutcome.transportErr)).2.2 ?_,
    by decide, by decide⟩
  intro i _
  exact (by decide : AttemptOutcome.transportErr ≠ AttemptOutcome.success)

theorem lookupColor_none_iff (k : String) :
    CHANNEL_COLORS.lookup k = none
      ↔ k ∉ (["ALPHA", "BETA", "STABLE", "RECOMMENDED"] : List String) := by
  by_cases h1 : k = "ALPHA"
  · subst h1; decide
  by_cases h2 : k = "BETA"
  · subst h2; decide
  by_cases h3 : k = "STABLE"
  · subst h3; decide
  by_cases h4 : k = "RECOMMENDED"
  · subst h4; decide
  have e1 := beq_eq_false_iff_ne.mpr h1
  have e2 := beq_eq_false_iff_ne.mpr h2
  have e3 := beq_eq_false_iff_ne.mpr h3
  have e4 := beq_eq_false_iff_ne.mpr h4
  simp [CHANNEL_COLORS, List.lookup, e1, e2, e3, e4, h1, h2, h3, h4]

/-- C10: `send_v2_webhook` builds its payload by indexing the channel-color
table with the uppercased channel name: whenever the uppercase form is one
of ALPHA, BETA, STABLE, RECOMMENDED the lookup succeeds, the payload carries
the looked-up accent color and exactly one delivery attempt is made; for any
other channel value the `KeyError` propagates (`ret = none`) before any
delivery attempt (empty event trace). -/
theorem channel_color_lookup (proj hook_url latest_build latest_version : String)
    (build_time : Int) (image_url changes download_url drama channel_name : String)
    (channel_changed : Bool) :
    (pyUpper channel_name ∈ (["ALPHA", "BETA", "STABLE", "RECOMMENDED"] : List String) →
      ∃ color, CHANNEL_COLORS.lookup (pyUpper channel_name) = some color
        ∧ send_v2_webhook proj hook_url latest_build latest_version build_time image_url
            changes download_url drama channel_name channel_changed
          = { events := [Event.webhookPost hook_url
                { accent_color := color, project := proj, channel_name := channel_name,
                  latest_build := latest_build, latest_version := latest_version,
                  build_time := build_time, image_url := image_url, changes := changes,
                  download_url := download_url, drama := drama,
                  channel_banner := channel_changed }],
              ret := some () })
    ∧ (pyUpper channel_name ∉ (["ALPHA", "BETA", "STABLE", "RECOMMENDED"] : List String) →
        send_v2_webhook proj hook_url latest_build latest_version build_time image_url
            changes download_url drama channel_name channel_changed
          = { events := [], ret := none }) := by
  constructor
  · intro hmem
    have hne : CHANNEL_COLORS.lookup (pyUpper channel_name) ≠ none := by
      rw [Ne, lookupColor_none_iff]
      exact fun hn => hn hmem
    obtain ⟨color, hc⟩ := Option.ne_none_iff_exists'.mp hne
    exact ⟨color, hc, by simp [send_v2_webhook, hc]⟩
  · intro hnot
    have hn : CHANNEL_COLORS.lookup (pyUpper channel_name) = none :=
      (lookupColor_none_iff _).mpr hnot
    simp [send_v2_webhook, hn]

/-- C10 witness: the capitalized form "Stable" uppercases into the table and
is delivered; "Experimental" raises before any delivery attempt. -/
theorem channel_color_lookup_witness :
    (send_v2_webhook "paper" "https://hook.example/a" "123" "1.21.1" 0 "" "" "" ""
        "Stable" false).ret = some ()
    ∧ send_v2_webhook "paper" "https://hook.example/a" "123" "1.21.1" 0 "" "" "" ""
        "Experimental" false
      = { events := [], ret := none } := by
  constructor
  · obtain ⟨color, hc, heq⟩ := (channel_color_lookup "paper" "https://hook.example/a" "123"
      "1.21.1" 0 "" "" "" "" "Stable" false).1 (by decide)
    rw [heq]
  · exact (channel_color_lookup "paper" "https://hook.example/a" "123" "1.21.1" 0 "" "" ""
      "" "Experimental" false).2 (by decide)

end PaperPoller
